import Mathlib

/-!
Verification development for the fine-tuning driver script
`src/pretraining/run_language_modeling.py`.

The script parses three argument groups, validates two startup preconditions,
loads a model and tokenizer from a hard-coded checkpoint identifier, registers
two sentinel special tokens, forces the block size to 4096, builds the training
dataset and collator, trains, evaluates, computes perplexity with `math.exp`,
and writes the results file.

The embedding below models `main` as a function from the three argument groups
and an external world (filesystem answers, pretrained artifacts, evaluation
loss) to an ordered trace of externally visible events together with either a
raised error or the returned results mapping.  External collaborators
(transformers tokenizer and model, `TextDataset`, the data collator) are
modelled as records of their constructor arguments or from the documented
collaborator contracts, since their code is not part of this file.
-/

namespace RunLM

/-- Tokenizer state.  Modelled from the spec: the transformers tokenizer
(external library code) is a mutable vocabulary of tokens, some marked
special; it is loaded once and then extended in place with new tokens. -/
structure Tokenizer where
  tokens : List String
  special : List String
deriving DecidableEq

/-- Modelled from the spec: transformers `add_tokens` (external library code)
registers new tokens into the vocabulary, idempotently — re-adding an
already-present token must not create a duplicate id.  A genuinely new token
is appended at the end of the vocabulary (receiving the next fresh id) and is
recorded as special when the flag is set. -/
def add_tokens (tk : Tokenizer) (new_toks : List String) (special_flag : Bool) : Tokenizer :=
  new_toks.foldl
    (fun t s =>
      if s ∈ t.tokens then t
      else { tokens := t.tokens ++ [s],
             special := if special_flag then t.special ++ [s] else t.special })
    tk

/-- Modelled from the spec: transformers `resize_token_embeddings` (external
library code) resizes the token-embedding matrix to `n` rows, with existing
rows preserved unchanged and new rows initialized by the model initialization
policy (here the abstract `initRow`).  Rows are abstract values. -/
def resize_token_embeddings (rows : List Int) (n : Nat) (initRow : Nat → Int) : List Int :=
  rows.take n ++ (List.range (n - rows.length)).map (fun i => initRow (rows.length + i))

/-- Model-selection arguments, with the source defaults (`ModelArguments`). -/
structure ModelArguments where
  model_name_or_path : Option String :=
    some "/home/t-avic/PycharmProjects/coref_former/longformer-base-4096/"
  model_type : Option String := none
  config_name : Option String :=
    some "/home/t-avic/PycharmProjects/coref_former/longformer-base-4096/"
  tokenizer_name : Option String := some "RobertaTokenizer"
  cache_dir : Option String := some "/home/t-avic/PycharmProjects/coref_former/finetuned"

/-- Data-selection arguments, with the source defaults (`DataTrainingArguments`). -/
structure DataTrainingArguments where
  train_data_file : Option String := some "train.txt.src"
  eval_data_file : Option String := none
  line_by_line : Bool := false
  globalize_special_tokens : Bool := false
  mlm : Bool := true
  mlm_probability : ℚ := 15 / 100
  block_size : Int := -1
  overwrite_cache : Bool := false

/-- Modelled from the spec: the external `TrainingArguments` bag of trainer
hyperparameters; only the fields this script actually reads are modelled. -/
structure TrainingArguments where
  output_dir : String
  overwrite_output_dir : Bool
  do_train : Bool
  do_eval : Bool
  local_rank : Int
  seed : Int
  fp16 : Bool

/-- Modelled from the spec: `TextDataset` (repository file
`pretraining/corpus_preprocessing.py`, not available under `src/`) is recorded
as its constructor arguments, per the collaborator contract: tokenizer, split
tag, file path, block size, distributed rank. -/
structure TextDataset where
  tokenizer : Tokenizer
  split : String
  file_path : Option String
  block_size : Int
  local_rank : Int

/-- Modelled from the spec: the masking collator (repository file
`pretraining/cdmlm_data_collector.py`, not available under `src/`) is recorded
as its constructor arguments. -/
structure DataCollatorForLanguageModeling where
  tokenizer : Tokenizer
  mlm : Bool
  mlm_probability : ℚ
  globalize_special_tokens : Bool

/-- Embedding of `get_dataset` (source lines 115-119): selects the evaluation
file when `evaluate` else the training file, and constructs the dataset with
split tag dev or train, the configured block size and the given rank. -/
def get_dataset (args : DataTrainingArguments) (tokenizer : Tokenizer)
    (evaluate : Bool := false) (local_rank : Int := -1) : TextDataset :=
  let file_path := if evaluate then args.eval_data_file else args.train_data_file
  { tokenizer := tokenizer
    split := if evaluate then "dev" else "train"
    file_path := file_path
    block_size := args.block_size
    local_rank := local_rank }

/-- Python errors the embedded `main` can raise. -/
inductive PyError where
  | valueError (msg : String)
  | overflowError (msg : String)
deriving DecidableEq

/-- The exact message of the first startup validation (source lines 127-130);
it names the missing flag `--eval_data_file`. -/
def evalDataFileErrorMsg : String :=
  "Cannot do evaluation without an evaluation data file. Either supply a file to --eval_data_file or remove the --do_eval argument."

/-- The exact message of the second startup validation (source lines 138-140);
it names the remediation flag `--overwrite_output_dir`. -/
def outputDirErrorMsg (dir : String) : String :=
  "Output directory (" ++ dir ++ ") already exists and is not empty. Use --overwrite_output_dir to overcome."

/-- The largest finite IEEE-754 double, as a real number:
(2 - 2 ^ (-52)) * 2 ^ 1023 = 2 ^ 1024 - 2 ^ 971. -/
noncomputable def floatMax : ℝ := 2 ^ (1024 : ℕ) - 2 ^ (971 : ℕ)

open Classical in
/-- Model of Python `math.exp` on a finite input: when the mathematical result
exceeds the largest finite double, CPython raises
`OverflowError: math range error`; otherwise the (real) value e ^ x is
returned.  Rounding of in-range results is not modelled. -/
noncomputable def pythonExp (x : ℝ) : Except PyError ℝ :=
  if Real.exp x ≤ floatMax then .ok (Real.exp x)
  else .error (.overflowError "math range error")

/-- The external world `main` runs against: filesystem answers, the pretrained
artifacts behind the checkpoint identifier, the distributed-master flag, the
scalar loss the external trainer evaluation returns, and the Python rendering
of floats to strings. -/
structure World where
  pathExists : String → Bool
  listdirNonempty : String → Bool
  isDir : String → Bool
  pretrainedTokenizer : Tokenizer
  pretrainedEmbRows : List Int
  initRow : Nat → Int
  isWorldMaster : Bool
  evalLoss : ℝ
  floatStr : ℝ → String

/-- Externally visible events of a `main` run, in program order. -/
inductive Event where
  | setSeed (seed : Int)
  | loadModel (checkpoint : String)
  | loadTokenizer (checkpoint : String)
  | addSpecialTokens (toks : List String)
  | buildDataset (ds : TextDataset)
  | resizeEmbeddings (n : Nat) (newRows : List Int)
  | buildCollator (c : DataCollatorForLanguageModeling)
  | buildTrainer (prediction_loss_only : Bool)
  | train (model_path : Option String)
  | saveTokenizer (dir : String) (tk : Tokenizer)
  | evaluate
  | writeFile (path : String) (lines : List String)

/-- The hard-coded checkpoint identifier of source lines 159-160. -/
def checkpointId : String := "allenai/longformer-base-4096"

/-- First startup validation condition (source line 126):
`data_args.eval_data_file is None and training_args.do_eval`. -/
def evalDataFileCheck (da : DataTrainingArguments) (ta : TrainingArguments) : Bool :=
  da.eval_data_file.isNone && ta.do_eval

/-- Second startup validation condition (source lines 132-137):
the output directory exists, is non-empty, training is requested and
overwriting is not allowed. -/
def outputDirCheck (ta : TrainingArguments) (w : World) : Bool :=
  w.pathExists ta.output_dir && w.listdirNonempty ta.output_dir
    && ta.do_train && !ta.overwrite_output_dir

/-- Model of Python `os.path.join` for the two-argument case used here. -/
def osPathJoin (a b : String) : String :=
  if b.startsWith "/" then b
  else if a = "" then b
  else if a.endsWith "/" then a ++ b
  else a ++ "/" ++ b

/-- The keys of the results dict, sorted lexicographically, as Python
`sorted(result.keys())` produces (insertion sort is a stable sort and agrees
with Python sorted on the produced order of distinct keys). -/
def sortedKeys (result : List (String × ℝ)) : List String :=
  List.insertionSort (fun a b => a ≤ b) (result.map Prod.fst)

/-- Dict access `result[key]` on an association list (keys produced by the
sorted iteration are always present, so the default is never reached). -/
def lookupD (result : List (String × ℝ)) (k : String) : ℝ :=
  (result.lookup k).getD 0

/-- One line of the results file: `"%s = %s\n" % (key, str(result[key]))`. -/
def resultLine (fs : ℝ → String) (result : List (String × ℝ)) (k : String) : String :=
  k ++ " = " ++ fs (lookupD result k) ++ "\n"

/-- The lines written to `eval_results_lm.txt` (source lines 199-203): one
`key = value` line per metric, keys iterated in sorted order. -/
def writeResultLines (fs : ℝ → String) (result : List (String × ℝ)) : List String :=
  (sortedKeys result).map (resultLine fs result)

/-- The event trace of a run that passed both startup validations, up to and
including the evaluation call (source lines 157-193): seed, the two loads from
the hard-coded checkpoint, the two sentinel-token registrations, dataset
construction with the block size forced to 4096, embedding resize to the new
vocabulary size, collator and trainer construction, training with the resolved
resume path, the master-only tokenizer save, and evaluation. -/
def successTrace (ma : ModelArguments) (da : DataTrainingArguments)
    (ta : TrainingArguments) (w : World) : List Event :=
  let tk0 := w.pretrainedTokenizer
  let tk1 := add_tokens tk0 ["<doc-s>"] true
  let tk2 := add_tokens tk1 ["</doc-s>"] true
  let da' := { da with block_size := 4096 }
  let train_dataset := get_dataset da' tk2 false ta.local_rank
  let collator : DataCollatorForLanguageModeling :=
    { tokenizer := tk2
      mlm := da.mlm
      mlm_probability := da.mlm_probability
      globalize_special_tokens := da.globalize_special_tokens }
  let model_path : Option String :=
    match ma.model_name_or_path with
    | some p => if w.isDir p then some p else none
    | none => none
  [Event.setSeed ta.seed,
   Event.loadModel checkpointId,
   Event.loadTokenizer checkpointId,
   Event.addSpecialTokens ["<doc-s>"],
   Event.addSpecialTokens ["</doc-s>"],
   Event.buildDataset train_dataset,
   Event.resizeEmbeddings tk2.tokens.length
     (resize_token_embeddings w.pretrainedEmbRows tk2.tokens.length w.initRow),
   Event.buildCollator collator,
   Event.buildTrainer true,
   Event.train model_path]
  ++ (if w.isWorldMaster then [Event.saveTokenizer ta.output_dir tk2] else [])
  ++ [Event.evaluate]

/-- Embedding of `main` (source lines 122-207): the two startup validations in
order, then the linear success path; returns the trace of events that happened
before termination, together with the raised error or the returned results
mapping.  A validation failure raises before any model or data loading, hence
with an empty trace.  An overflow of `math.exp` raises after evaluation, so no
results file is written. -/
noncomputable def mainRun (ma : ModelArguments) (da : DataTrainingArguments)
    (ta : TrainingArguments) (w : World) :
    List Event × Except PyError (List (String × ℝ)) :=
  if evalDataFileCheck da ta then
    ([], .error (.valueError evalDataFileErrorMsg))
  else if outputDirCheck ta w then
    ([], .error (.valueError (outputDirErrorMsg ta.output_dir)))
  else
    match pythonExp w.evalLoss with
    | .error e => (successTrace ma da ta w, .error e)
    | .ok perplexity =>
        let result : List (String × ℝ) := [("perplexity", perplexity)]
        let output_eval_file := osPathJoin ta.output_dir "eval_results_lm.txt"
        (successTrace ma da ta w
           ++ [Event.writeFile output_eval_file (writeResultLines w.floatStr result)],
         .ok result)

/-! ### Shared helper lemmas -/

/-- Once both startup validations pass, the trace of `mainRun` is an extension
of `successTrace`. -/
theorem mainRun_trace_extends (ma : ModelArguments) (da : DataTrainingArguments)
    (ta : TrainingArguments) (w : World)
    (h1 : evalDataFileCheck da ta = false) (h2 : outputDirCheck ta w = false) :
    ∃ t, (mainRun ma da ta w).1 = successTrace ma da ta w ++ t := by
  unfold mainRun
  rcases hm : pythonExp w.evalLoss with e | p <;> simp [h1, h2, hm]

/-- Every event of a `mainRun` trace is either an event of `successTrace` or a
final results-file write. -/
theorem mainRun_trace_cases (ma : ModelArguments) (da : DataTrainingArguments)
    (ta : TrainingArguments) (w : World) (e : Event)
    (he : e ∈ (mainRun ma da ta w).1) :
    e ∈ successTrace ma da ta w ∨ ∃ p ls, e = Event.writeFile p ls := by
  unfold mainRun at he
  by_cases h1 : evalDataFileCheck da ta
  · simp [h1] at he
  by_cases h2 : outputDirCheck ta w
  · simp [h1, h2] at he
  rcases hm : pythonExp w.evalLoss with er | p <;> simp [h1, h2, hm] at he
  · exact Or.inl he
  · rcases he with he | he
    · exact Or.inl he
    · exact Or.inr ⟨_, _, he⟩

/-! ### Concrete fixtures used by the witnesses -/

/-- Default-constructed model arguments. -/
def maW : ModelArguments := {}

/-- Default-constructed data arguments (`eval_data_file` is unset). -/
def daW : DataTrainingArguments := {}

/-- A concrete training configuration with all flags off. -/
def taW : TrainingArguments :=
  { output_dir := "out", overwrite_output_dir := false, do_train := false,
    do_eval := false, local_rank := -1, seed := 42, fp16 := false }

/-- A concrete world: empty filesystem, a one-token pretrained tokenizer with a
matching one-row embedding matrix, evaluation loss 0. -/
noncomputable def wW : World :=
  { pathExists := fun _ => false
    listdirNonempty := fun _ => false
    isDir := fun _ => false
    pretrainedTokenizer := Tokenizer.mk ["hello"] []
    pretrainedEmbRows := [7]
    initRow := fun _ => 0
    isWorldMaster := true
    evalLoss := 0
    floatStr := fun _ => "1.0" }

/-! ### Claims -/

/-- Claim C1: when `do_eval` is set and `eval_data_file` is unset, `main`
raises the fatal configuration error whose message names the missing flag
`--eval_data_file`, with an empty event trace — so before any model or data
loading; when `do_eval` is false or `eval_data_file` is set, this first
validation passes. -/
theorem c1_eval_requires_eval_file (ma : ModelArguments) (da : DataTrainingArguments)
    (ta : TrainingArguments) (w : World) :
    (da.eval_data_file = none → ta.do_eval = true →
        mainRun ma da ta w = ([], .error (.valueError evalDataFileErrorMsg)))
    ∧ (ta.do_eval = false ∨ da.eval_data_file ≠ none → evalDataFileCheck da ta = false) := by
  constructor
  · intro h1 h2
    unfold mainRun
    simp [evalDataFileCheck, h1, h2]
  · rintro (h | h)
    · simp [evalDataFileCheck, h]
    · rcases he : da.eval_data_file with _ | v
      · exact absurd he h
      · simp [evalDataFileCheck, he]

/-- Witness for claim C1: a configuration with `do_eval` set and no evaluation
file fails startup with an empty trace. -/
theorem c1_eval_requires_eval_file_witness :
    daW.eval_data_file = none
    ∧ ({ taW with do_eval := true } : TrainingArguments).do_eval = true
    ∧ mainRun maW daW { taW with do_eval := true } wW
        = ([], .error (.valueError evalDataFileErrorMsg)) :=
  ⟨rfl, rfl, (c1_eval_requires_eval_file maW daW { taW with do_eval := true } wW).1 rfl rfl⟩

/-- Claim C2: when the output directory exists and is non-empty, training is
requested and overwriting is not allowed, `main` raises the fatal error naming
`--overwrite_output_dir`, with an empty event trace — so before any model or
data loading; with `overwrite_output_dir` set, the directory guard passes and
startup proceeds past this check to the model load. -/
theorem c2_output_dir_guard (ma : ModelArguments) (da : DataTrainingArguments)
    (ta : TrainingArguments) (w : World) :
    (evalDataFileCheck da ta = false →
      w.pathExists ta.output_dir = true → w.listdirNonempty ta.output_dir = true →
      ta.do_train = true → ta.overwrite_output_dir = false →
      mainRun ma da ta w = ([], .error (.valueError (outputDirErrorMsg ta.output_dir))))
    ∧ (ta.overwrite_output_dir = true → outputDirCheck ta w = false)
    ∧ (ta.overwrite_output_dir = true → evalDataFileCheck da ta = false →
        Event.loadModel checkpointId ∈ (mainRun ma da ta w).1) := by
  refine ⟨?_, ?_, ?_⟩
  · intro h1 he hl ht ho
    unfold mainRun
    simp [h1, outputDirCheck, he, hl, ht, ho]
  · intro h
    simp [outputDirCheck, h]
  · intro ho h1
    have h2 : outputDirCheck ta w = false := by simp [outputDirCheck, ho]
    obtain ⟨t, ht⟩ := mainRun_trace_extends ma da ta w h1 h2
    rw [ht]
    refine List.mem_append_left _ ?_
    simp [successTrace]

/-- Witness for claim C2: a run with a pre-existing non-empty output directory
and `do_train` fails with the directory error; the same run with
`overwrite_output_dir` reaches the model load. -/
theorem c2_output_dir_guard_witness :
    (evalDataFileCheck daW { taW with do_train := true } = false
      ∧ ({ wW with pathExists := fun _ => true, listdirNonempty := fun _ => true } : World).pathExists
          ({ taW with do_train := true } : TrainingArguments).output_dir = true
      ∧ ({ wW with pathExists := fun _ => true, listdirNonempty := fun _ => true } : World).listdirNonempty
          ({ taW with do_train := true } : TrainingArguments).output_dir = true
      ∧ ({ taW with do_train := true } : TrainingArguments).do_train = true
      ∧ ({ taW with do_train := true } : TrainingArguments).overwrite_output_dir = false
      ∧ mainRun maW daW { taW with do_train := true }
          { wW with pathExists := fun _ => true, listdirNonempty := fun _ => true }
          = ([], .error (.valueError (outputDirErrorMsg "out"))))
    ∧ (({ taW with do_train := true, overwrite_output_dir := true } : TrainingArguments).overwrite_output_dir = true
      ∧ evalDataFileCheck daW { taW with do_train := true, overwrite_output_dir := true } = false
      ∧ Event.loadModel checkpointId ∈
          (mainRun maW daW { taW with do_train := true, overwrite_output_dir := true }
            { wW with pathExists := fun _ => true, listdirNonempty := fun _ => true }).1) :=
  ⟨⟨rfl, rfl, rfl, rfl, rfl,
    (c2_output_dir_guard maW daW { taW with do_train := true }
      { wW with pathExists := fun _ => true, listdirNonempty := fun _ => true }).1
      rfl rfl rfl rfl rfl⟩,
   rfl, rfl,
   (c2_output_dir_guard maW daW { taW with do_train := true, overwrite_output_dir := true }
      { wW with pathExists := fun _ => true, listdirNonempty := fun _ => true }).2.2
      rfl rfl⟩

/-- Claim C3: `get_dataset` with `evaluate = true` uses `eval_data_file` and
split tag dev, with `evaluate = false` uses `train_data_file` and split tag
train, passing through the configured block size, the given rank and the given
tokenizer, independently of the other file field (including when unset). -/
theorem c3_get_dataset_routing (args : DataTrainingArguments) (tk : Tokenizer) (r : Int) :
    ((get_dataset args tk true r).file_path = args.eval_data_file
      ∧ (get_dataset args tk true r).split = "dev")
    ∧ ((get_dataset args tk false r).file_path = args.train_data_file
      ∧ (get_dataset args tk false r).split = "train")
    ∧ (∀ ev : Bool, (get_dataset args tk ev r).block_size = args.block_size
        ∧ (get_dataset args tk ev r).local_rank = r
        ∧ (get_dataset args tk ev r).tokenizer = tk)
    ∧ (∀ t : Option String,
        get_dataset { args with train_data_file := t } tk true r = get_dataset args tk true r)
    ∧ (∀ t : Option String,
        get_dataset { args with eval_data_file := t } tk false r = get_dataset args tk false r) := by
  refine ⟨⟨rfl, rfl⟩, ⟨rfl, rfl⟩, fun ev => ⟨rfl, rfl, rfl⟩, fun t => rfl, fun t => rfl⟩

/-- Claim C6: registering a token that is already present in the vocabulary is
idempotent — it changes nothing, in particular it creates no duplicate id and
leaves the vocabulary size unchanged. -/
theorem c6_add_tokens_idempotent (tk : Tokenizer) (t : String) (special_flag : Bool)
    (h : t ∈ tk.tokens) :
    add_tokens tk [t] special_flag = tk
    ∧ (add_tokens tk [t] special_flag).tokens.length = tk.tokens.length := by
  constructor <;> simp [add_tokens, h]

/-- Witness for claim C6 at a concrete tokenizer already containing the token. -/
theorem c6_add_tokens_idempotent_witness :
    "<doc-s>" ∈ (Tokenizer.mk ["a", "<doc-s>"] ["<doc-s>"]).tokens
    ∧ (add_tokens (Tokenizer.mk ["a", "<doc-s>"] ["<doc-s>"]) ["<doc-s>"] true
        = Tokenizer.mk ["a", "<doc-s>"] ["<doc-s>"]
      ∧ (add_tokens (Tokenizer.mk ["a", "<doc-s>"] ["<doc-s>"]) ["<doc-s>"] true).tokens.length
        = (Tokenizer.mk ["a", "<doc-s>"] ["<doc-s>"]).tokens.length) :=
  ⟨by decide, c6_add_tokens_idempotent (Tokenizer.mk ["a", "<doc-s>"] ["<doc-s>"]) "<doc-s>" true (by decide)⟩

/-- Claim C5: starting from a tokenizer that does not contain the sentinel
tokens, the two registrations of source lines 161-162 grow the vocabulary by
exactly 2, both sentinels are marked special, and the embedding resize of
source line 167 yields exactly `len(tokenizer)` rows with every pre-existing
row preserved unchanged (the original matrix is the prefix of the new one). -/
theorem c5_sentinels_and_resize (tk0 : Tokenizer) (rows : List Int) (initRow : Nat → Int)
    (h1 : "<doc-s>" ∉ tk0.tokens) (h2 : "</doc-s>" ∉ tk0.tokens)
    (hrows : rows.length = tk0.tokens.length) :
    (add_tokens (add_tokens tk0 ["<doc-s>"] true) ["</doc-s>"] true).tokens.length
        = tk0.tokens.length + 2
    ∧ "<doc-s>" ∈ (add_tokens (add_tokens tk0 ["<doc-s>"] true) ["</doc-s>"] true).special
    ∧ "</doc-s>" ∈ (add_tokens (add_tokens tk0 ["<doc-s>"] true) ["</doc-s>"] true).special
    ∧ (resize_token_embeddings rows
        (add_tokens (add_tokens tk0 ["<doc-s>"] true) ["</doc-s>"] true).tokens.length
        initRow).length
      = (add_tokens (add_tokens tk0 ["<doc-s>"] true) ["</doc-s>"] true).tokens.length
    ∧ (resize_token_embeddings rows
        (add_tokens (add_tokens tk0 ["<doc-s>"] true) ["</doc-s>"] true).tokens.length
        initRow).take rows.length = rows := by
  have hlen : (add_tokens (add_tokens tk0 ["<doc-s>"] true) ["</doc-s>"] true).tokens.length
      = tk0.tokens.length + 2 := by
    simp [add_tokens, h1, h2]
  have hle : rows.length ≤ tk0.tokens.length + 2 := by omega
  refine ⟨hlen, ?_, ?_, ?_, ?_⟩
  · simp [add_tokens, h1, h2]
  · simp [add_tokens, h1, h2]
  · rw [hlen]
    simp [resize_token_embeddings]
    omega
  · rw [hlen]
    simp [resize_token_embeddings, List.take_of_length_le hle]

/-- Witness for claim C5 at a concrete tokenizer and embedding matrix. -/
theorem c5_sentinels_and_resize_witness :
    "<doc-s>" ∉ (Tokenizer.mk ["a", "b"] []).tokens
    ∧ "</doc-s>" ∉ (Tokenizer.mk ["a", "b"] []).tokens
    ∧ ([10, 20] : List Int).length = (Tokenizer.mk ["a", "b"] []).tokens.length
    ∧ ((add_tokens (add_tokens (Tokenizer.mk ["a", "b"] []) ["<doc-s>"] true) ["</doc-s>"] true).tokens.length
        = (Tokenizer.mk ["a", "b"] []).tokens.length + 2
      ∧ "<doc-s>" ∈ (add_tokens (add_tokens (Tokenizer.mk ["a", "b"] []) ["<doc-s>"] true) ["</doc-s>"] true).special
      ∧ "</doc-s>" ∈ (add_tokens (add_tokens (Tokenizer.mk ["a", "b"] []) ["<doc-s>"] true) ["</doc-s>"] true).special
      ∧ (resize_token_embeddings [10, 20]
          (add_tokens (add_tokens (Tokenizer.mk ["a", "b"] []) ["<doc-s>"] true) ["</doc-s>"] true).tokens.length
          (fun _ => 0)).length
        = (add_tokens (add_tokens (Tokenizer.mk ["a", "b"] []) ["<doc-s>"] true) ["</doc-s>"] true).tokens.length
      ∧ (resize_token_embeddings [10, 20]
          (add_tokens (add_tokens (Tokenizer.mk ["a", "b"] []) ["<doc-s>"] true) ["</doc-s>"] true).tokens.length
          (fun _ => 0)).take ([10, 20] : List Int).length = [10, 20]) :=
  ⟨by decide, by decide, by decide,
   c5_sentinels_and_resize (Tokenizer.mk ["a", "b"] []) [10, 20] (fun _ => 0)
     (by decide) (by decide) (by decide)⟩

/-- Claim C4: whatever block size is configured (including the -1 sentinel
default), every dataset `main` builds has block size exactly 4096, and a run
that passes both validations does build such a dataset. -/
theorem c4_block_size_forced (ma : ModelArguments) (da : DataTrainingArguments)
    (ta : TrainingArguments) (w : World) :
    (∀ ds : TextDataset,
      Event.buildDataset ds ∈ (mainRun ma da ta w).1 → ds.block_size = 4096)
    ∧ (evalDataFileCheck da ta = false → outputDirCheck ta w = false →
        ∃ ds : TextDataset,
          Event.buildDataset ds ∈ (mainRun ma da ta w).1 ∧ ds.block_size = 4096) := by
  constructor
  · intro ds hds
    rcases mainRun_trace_cases ma da ta w _ hds with hm | ⟨p, ls, hw⟩
    · by_cases hwm : w.isWorldMaster <;> simp [successTrace, hwm] at hm <;>
        simp [hm, get_dataset]
    · simp at hw
  · intro h1 h2
    obtain ⟨t, ht⟩ := mainRun_trace_extends ma da ta w h1 h2
    refine ⟨get_dataset { da with block_size := 4096 }
      (add_tokens (add_tokens w.pretrainedTokenizer ["<doc-s>"] true) ["</doc-s>"] true)
      false ta.local_rank, ?_, rfl⟩
    rw [ht]
    refine List.mem_append_left _ ?_
    simp [successTrace]

/-- Witness for claim C4 at a concrete run that passes both validations. -/
theorem c4_block_size_forced_witness :
    evalDataFileCheck daW taW = false ∧ outputDirCheck taW wW = false
    ∧ (∃ ds : TextDataset,
        Event.buildDataset ds ∈ (mainRun maW daW taW wW).1 ∧ ds.block_size = 4096) :=
  ⟨rfl, rfl, (c4_block_size_forced maW daW taW wW).2 rfl rfl⟩

/-- Claim C7: both artifact loads use the hard-coded public checkpoint
identifier `allenai/longformer-base-4096`, whatever the parsed
`model_name_or_path`, `config_name` and `tokenizer_name` say (the statement is
universally quantified over the model arguments and the loaded identifier is a
constant), and a run that passes both validations performs both loads. -/
theorem c7_hardcoded_checkpoint (ma : ModelArguments) (da : DataTrainingArguments)
    (ta : TrainingArguments) (w : World) :
    (∀ s : String,
      Event.loadModel s ∈ (mainRun ma da ta w).1 → s = "allenai/longformer-base-4096")
    ∧ (∀ s : String,
      Event.loadTokenizer s ∈ (mainRun ma da ta w).1 → s = "allenai/longformer-base-4096")
    ∧ (evalDataFileCheck da ta = false → outputDirCheck ta w = false →
        Event.loadModel "allenai/longformer-base-4096" ∈ (mainRun ma da ta w).1
        ∧ Event.loadTokenizer "allenai/longformer-base-4096" ∈ (mainRun ma da ta w).1) := by
  refine ⟨?_, ?_, ?_⟩
  · intro s hs
    rcases mainRun_trace_cases ma da ta w _ hs with hm | ⟨p, ls, hw⟩
    · by_cases hwm : w.isWorldMaster <;> simp [successTrace, hwm, checkpointId] at hm <;>
        exact hm
    · simp at hw
  · intro s hs
    rcases mainRun_trace_cases ma da ta w _ hs with hm | ⟨p, ls, hw⟩
    · by_cases hwm : w.isWorldMaster <;> simp [successTrace, hwm, checkpointId] at hm <;>
        exact hm
    · simp at hw
  · intro h1 h2
    obtain ⟨t, ht⟩ := mainRun_trace_extends ma da ta w h1 h2
    rw [ht]
    exact ⟨List.mem_append_left _ (by simp [successTrace, checkpointId]),
           List.mem_append_left _ (by simp [successTrace, checkpointId])⟩

/-- Witness for claim C7 at a concrete run that passes both validations. -/
theorem c7_hardcoded_checkpoint_witness :
    evalDataFileCheck daW taW = false ∧ outputDirCheck taW wW = false
    ∧ (Event.loadModel "allenai/longformer-base-4096" ∈ (mainRun maW daW taW wW).1
      ∧ Event.loadTokenizer "allenai/longformer-base-4096" ∈ (mainRun maW daW taW wW).1) :=
  ⟨rfl, rfl, (c7_hardcoded_checkpoint maW daW taW wW).2.2 rfl rfl⟩

/-- Claim C10: once the two startup validations pass, training and evaluation
are invoked unconditionally — `do_train` and `do_eval` do not occur in the
hypotheses — and the returned value is the perplexity computation applied to
the evaluation result; in particular `do_eval = false` (with any
`eval_data_file`, including unset) passes the first validation. -/
theorem c10_train_eval_unconditional (ma : ModelArguments) (da : DataTrainingArguments)
    (ta : TrainingArguments) (w : World) (h2 : outputDirCheck ta w = false) :
    (evalDataFileCheck da ta = false →
      (∃ mp : Option String, Event.train mp ∈ (mainRun ma da ta w).1)
      ∧ Event.evaluate ∈ (mainRun ma da ta w).1
      ∧ (mainRun ma da ta w).2
          = Except.map (fun p => [("perplexity", p)]) (pythonExp w.evalLoss))
    ∧ (ta.do_eval = false → evalDataFileCheck da ta = false) := by
  constructor
  · intro h1
    obtain ⟨t, ht⟩ := mainRun_trace_extends ma da ta w h1 h2
    refine ⟨⟨match ma.model_name_or_path with
              | some p => if w.isDir p then some p else none
              | none => none, ?_⟩, ?_, ?_⟩
    · rw [ht]
      exact List.mem_append_left _ (by simp [successTrace])
    · rw [ht]
      refine List.mem_append_left _ ?_
      by_cases hwm : w.isWorldMaster <;> simp [successTrace, hwm]
    · unfold mainRun
      rcases hm : pythonExp w.evalLoss with e | p <;> simp [h1, h2, hm, Except.map]
  · intro h
    simp [evalDataFileCheck, h]

/-- Witness for claim C10: with `do_eval` and `do_train` both off and no
evaluation file, validation passes and training plus evaluation still occur. -/
theorem c10_train_eval_unconditional_witness :
    outputDirCheck taW wW = false ∧ evalDataFileCheck daW taW = false
    ∧ ((∃ mp : Option String, Event.train mp ∈ (mainRun maW daW taW wW).1)
      ∧ Event.evaluate ∈ (mainRun maW daW taW wW).1
      ∧ (mainRun maW daW taW wW).2
          = Except.map (fun p => [("perplexity", p)]) (pythonExp wW.evalLoss)) :=
  ⟨rfl, rfl, (c10_train_eval_unconditional maW daW taW wW rfl).1 rfl⟩

/-- The largest finite double is at least 1. -/
theorem one_le_floatMax : (1 : ℝ) ≤ floatMax := by
  unfold floatMax
  norm_num

/-- e ^ 2 is far below the largest finite double. -/
theorem exp_two_le_floatMax : Real.exp 2 ≤ floatMax := by
  have h1 : Real.exp 2 = Real.exp 1 * Real.exp 1 := by
    rw [← Real.exp_add]; norm_num
  have h2 : Real.exp 1 < 2.7182818286 := Real.exp_one_lt_d9
  have h0 : (0:ℝ) < Real.exp 1 := Real.exp_pos 1
  have hlt : Real.exp 2 < 2.7182818286 * 2.7182818286 := by
    rw [h1]
    exact mul_lt_mul' h2.le h2 h0.le (by norm_num)
  refine le_trans hlt.le ?_
  unfold floatMax
  norm_num

/-- e ^ 1000 overflows the double range. -/
theorem floatMax_lt_exp_1000 : floatMax < Real.exp 1000 := by
  have h1 : Real.exp 1000 = Real.exp 1 ^ (1000:ℕ) := by
    rw [← Real.exp_nat_mul]; norm_num
  have h2 : (27/10:ℝ) < Real.exp 1 := lt_trans (by norm_num) Real.exp_one_gt_d9
  have h3 : (27/10:ℝ) ^ (1000:ℕ) < Real.exp 1 ^ (1000:ℕ) :=
    pow_lt_pow_left₀ h2 (by norm_num) (by norm_num)
  have h4 : floatMax < (27/10:ℝ) ^ (1000:ℕ) := by
    unfold floatMax
    norm_num
  rw [h1]
  exact lt_trans h4 h3

/-- The modelled `math.exp` at loss 0 returns exactly 1. -/
theorem pythonExp_zero : pythonExp 0 = .ok 1 := by
  unfold pythonExp
  rw [Real.exp_zero, if_pos one_le_floatMax]

/-- The modelled `math.exp` at loss 2 returns exactly e ^ 2. -/
theorem pythonExp_two : pythonExp 2 = .ok (Real.exp 2) := by
  unfold pythonExp
  rw [if_pos exp_two_le_floatMax]

/-- The modelled `math.exp` at the large finite loss 1000 raises
`OverflowError: math range error`. -/
theorem pythonExp_overflow_1000 :
    pythonExp 1000 = .error (.overflowError "math range error") := by
  unfold pythonExp
  rw [if_neg (not_le.mpr floatMax_lt_exp_1000)]

/-- Claim C8 (amended): perplexity is computed as e raised to the evaluation
loss — at loss 0 it is exactly 1 and at loss 2 it is exactly e ^ 2 — but for a
large finite loss such as 1000 the computation raises
`OverflowError: math range error` rather than silently yielding an infinite
value. -/
theorem c8_perplexity_exp :
    pythonExp 0 = .ok 1
    ∧ pythonExp 2 = .ok (Real.exp 2)
    ∧ pythonExp 1000 = .error (.overflowError "math range error") :=
  ⟨pythonExp_zero, pythonExp_two, pythonExp_overflow_1000⟩

/-- Counterexample for claim C8 as stated: at the concrete finite loss 1000
the perplexity computation errors (Python `math.exp` raises OverflowError),
so it does not silently yield an infinite value that propagates into the
results. -/
theorem c8_perplexity_exp_counterexample :
    pythonExp 1000 = Except.error (PyError.overflowError "math range error") :=
  pythonExp_overflow_1000

/-- Claim C9: on the success path the results are written to
`eval_results_lm.txt` inside the output directory, one `key = value` line per
metric with keys iterated in sorted order — for the single metric
perplexity = p exactly one line — and the same results mapping is returned
from the entrypoint. -/
theorem c9_results_file (ma : ModelArguments) (da : DataTrainingArguments)
    (ta : TrainingArguments) (w : World) (p : ℝ)
    (h1 : evalDataFileCheck da ta = false) (h2 : outputDirCheck ta w = false)
    (hp : pythonExp w.evalLoss = .ok p) :
    mainRun ma da ta w =
      (successTrace ma da ta w
        ++ [Event.writeFile (osPathJoin ta.output_dir "eval_results_lm.txt")
              ["perplexity = " ++ w.floatStr p ++ "\n"]],
       .ok [("perplexity", p)])
    ∧ writeResultLines w.floatStr [("perplexity", p)]
        = ["perplexity = " ++ w.floatStr p ++ "\n"]
    ∧ (∀ res : List (String × ℝ),
        List.Sorted (fun a b : String => a ≤ b) (sortedKeys res)) := by
  have hl : writeResultLines w.floatStr [("perplexity", p)]
      = ["perplexity = " ++ w.floatStr p ++ "\n"] := by
    simp [writeResultLines, sortedKeys, resultLine, lookupD]
  refine ⟨?_, hl, ?_⟩
  · unfold mainRun
    simp [h1, h2, hp, hl]
  · intro res
    exact List.sorted_insertionSort _ _

/-- Witness for claim C9 at a concrete run with evaluation loss 0, hence
perplexity exactly 1. -/
theorem c9_results_file_witness :
    evalDataFileCheck daW taW = false ∧ outputDirCheck taW wW = false
    ∧ pythonExp wW.evalLoss = .ok 1
    ∧ (mainRun maW daW taW wW =
        (successTrace maW daW taW wW
          ++ [Event.writeFile (osPathJoin taW.output_dir "eval_results_lm.txt")
                ["perplexity = " ++ wW.floatStr 1 ++ "\n"]],
         .ok [("perplexity", 1)])
      ∧ writeResultLines wW.floatStr [("perplexity", 1)]
          = ["perplexity = " ++ wW.floatStr 1 ++ "\n"]
      ∧ (∀ res : List (String × ℝ),
          List.Sorted (fun a b : String => a ≤ b) (sortedKeys res))) :=
  ⟨rfl, rfl, pythonExp_zero,
   c9_results_file maW daW taW wW 1 rfl rfl pythonExp_zero⟩

end RunLM
